import Mathlib

/-!
Verification development for the TelusGuardAI network-impact analysis backend.

The Lean definitions below are a shallow embedding of the Python sources:

* backend/services/ai_client.py        (AIModelClient.call_model retry loop)
* backend/agents/event_intelligence.py (stage 1: query parsing and fallback)
* backend/agents/web_intelligence.py   (stage 2: evidence gathering, dedup)
* backend/agents/geospatial_reasoning.py (stage 3: area creation and fallback)
* backend/orchestrator.py              (pipeline, filtering, summary, cache)
* backend/utils/cache.py               (TTL cache)
* backend/models/data_models.py        (dataclasses)
* backend/config.py                    (constants)

Modelling conventions, stated once here:

* Python floats are modelled as exact rationals.  Rationals are represented
  by the kernel-computable type Frac (an integer numerator and a positive
  integer denominator, not kept in lowest terms); Frac.toRat maps a Frac to
  the Mathlib rational it denotes, and all order/arithmetic reasoning is
  carried over that map.  Python round(x, 6) is modelled as rounding half
  up at the sixth decimal; binary floats are never exact ties at that
  granularity in the scenarios of interest, so the tie-breaking direction
  is immaterial to every statement below.
* Remote calls (model endpoints, web search, weather) are oracles: an Env
  record carries the text or data each remote call would return for this
  request, together with the wall-clock readings.  Raising is modelled with
  Except, an Except.error standing for a raised Python exception.
* Python dict-shaped model output is modelled by the Json type, and
  json.loads by a fuel-driven recursive-descent parser over the character
  list (the fuel is generous and only bounds nesting; NaN and Infinity
  literals, which the Python decoder would accept, are rejected - no claim
  depends on them).  Fields that the dataclasses in data_models.py declare
  as str/float are coerced at construction time; a non-string or
  non-numeric Json value in such a field is treated as a type error there
  (CPython would store the value and fail later, or render it into display
  text; no claim below depends on that corner).
-/

namespace TelusGuard

/-- Kernel-computable rational: numerator over a positive denominator, not
necessarily in lowest terms.  Models a Python float value exactly. -/
structure Frac where
  num : Int
  den : Int
  den_pos : 0 < den

namespace Frac

/-- Embed an integer. -/
def ofInt (n : Int) : Frac := ⟨n, 1, one_pos⟩

/-- The rational number a Frac denotes. -/
def toRat (a : Frac) : ℚ := (a.num : ℚ) / (a.den : ℚ)

/-- Addition (denominators multiply; no reduction). -/
def add (a b : Frac) : Frac :=
  ⟨a.num * b.den + b.num * a.den, a.den * b.den, mul_pos a.den_pos b.den_pos⟩

/-- Negation. -/
def neg (a : Frac) : Frac := ⟨-a.num, a.den, a.den_pos⟩

/-- Subtraction. -/
def sub (a b : Frac) : Frac :=
  ⟨a.num * b.den - b.num * a.den, a.den * b.den, mul_pos a.den_pos b.den_pos⟩

/-- Multiplication. -/
def mul (a b : Frac) : Frac :=
  ⟨a.num * b.num, a.den * b.den, mul_pos a.den_pos b.den_pos⟩

/-- Multiplicative inverse; the inverse of zero is zero (the embedding never
divides by a Frac whose numerator is zero without checking first, mirroring
the ZeroDivisionError modelling at the call sites). -/
def inv (a : Frac) : Frac :=
  if h : 0 < a.num then ⟨a.den, a.num, h⟩
  else if h2 : a.num < 0 then ⟨-a.den, -a.num, by omega⟩
  else ⟨0, 1, one_pos⟩

/-- Division via the inverse. -/
def div (a b : Frac) : Frac := mul a (inv b)

/-- Absolute value. -/
def abs (a : Frac) : Frac := ⟨|a.num|, a.den, a.den_pos⟩

/-- Order on Frac by cross multiplication (denominators are positive). -/
def le (a b : Frac) : Prop := a.num * b.den ≤ b.num * a.den

/-- Strict order on Frac by cross multiplication. -/
def lt (a b : Frac) : Prop := a.num * b.den < b.num * a.den

/-- Value equality of two Frac representations. -/
def eqv (a b : Frac) : Prop := a.num * b.den = b.num * a.den

/-- Floor of the denoted rational, computed by flooring integer division. -/
def floor (a : Frac) : Int := Int.fdiv a.num a.den

/-- Python round(x, 6): scale by one million, round half up, scale back. -/
def round6 (a : Frac) : Frac :=
  ⟨floor (add (mul a (ofInt 1000000)) ⟨1, 2, by norm_num⟩), 1000000, by norm_num⟩

instance : LE Frac := ⟨Frac.le⟩

instance : LT Frac := ⟨Frac.lt⟩

instance decLe (a b : Frac) : Decidable (a ≤ b) :=
  inferInstanceAs (Decidable (a.num * b.den ≤ b.num * a.den))

instance decLt (a b : Frac) : Decidable (a < b) :=
  inferInstanceAs (Decidable (a.num * b.den < b.num * a.den))

instance decEqv (a b : Frac) : Decidable (Frac.eqv a b) :=
  inferInstanceAs (Decidable (a.num * b.den = b.num * a.den))

instance decLeP (a b : Frac) : Decidable (Frac.le a b) :=
  inferInstanceAs (Decidable (a.num * b.den ≤ b.num * a.den))

instance decLtP (a b : Frac) : Decidable (Frac.lt a b) :=
  inferInstanceAs (Decidable (a.num * b.den < b.num * a.den))

end Frac

/-- Shorthand for integer-pair fractions with a decidable positivity proof. -/
def fr (n : Int) (d : Int) (h : 0 < d := by norm_num) : Frac := ⟨n, d, h⟩

/-- Parsed JSON values, the model of what json.loads returns. -/
inductive Json where
  | null
  | bool (b : Bool)
  | num (v : Frac)
  | str (s : String)
  | arr (items : List Json)
  | obj (entries : List (String × Json))

namespace Json

/-- Lookup of a key in a parsed object; later duplicates win, as in the
Python dict built by json.loads. -/
def objGet (entries : List (String × Json)) (key : String) : Option Json :=
  match entries with
  | [] => none
  | (k, v) :: rest =>
      match objGet rest key with
      | some w => some w
      | none => if k = key then some v else none

/-- Python dict.get with a default. -/
def objGetD (entries : List (String × Json)) (key : String) (dflt : Json) : Json :=
  (objGet entries key).getD dflt

/-- Python truthiness of a parsed JSON value. -/
def truthy : Json → Bool
  | .null => false
  | .bool b => b
  | .num v => decide (¬ Frac.eqv v (Frac.ofInt 0))
  | .str s => s ≠ ""
  | .arr items => !items.isEmpty
  | .obj entries => !entries.isEmpty

/-- Python len applied to a parsed JSON value; none models a TypeError. -/
def pyLen : Json → Option Nat
  | .str s => some s.length
  | .arr items => some items.length
  | .obj entries => some entries.length
  | _ => none

/-- Python slice v[:n] for nonnegative n; none models a TypeError on an
unsliceable value. -/
def pySliceTo (v : Json) (n : Nat) : Option Json :=
  match v with
  | .str s => some (.str (String.mk (s.data.take n)))
  | .arr items => some (.arr (items.take n))
  | _ => none

end Json

/-- Whitespace skipped by the JSON decoder. -/
def jsonSkipWs : List Char → List Char
  | c :: rest =>
      if c = ' ' ∨ c = '\n' ∨ c = '\t' ∨ c = '\r' then jsonSkipWs rest else c :: rest
  | [] => []

/-- Decimal digit test. -/
def isDigitChar (c : Char) : Bool := '0' ≤ c ∧ c ≤ '9'

/-- Digit value of a character. -/
def digitVal (c : Char) : Nat := c.toNat - '0'.toNat

/-- Reads a maximal run of digits, returning them and the rest. -/
def takeDigits : List Char → List Char × List Char
  | c :: rest =>
      if isDigitChar c then
        let (ds, rem) := takeDigits rest
        (c :: ds, rem)
      else ([], c :: rest)
  | [] => ([], [])

/-- Numeric value of a digit run. -/
def digitsToNat (ds : List Char) : Nat :=
  ds.foldl (fun acc c => acc * 10 + digitVal c) 0

/-- Hex digit value, if the character is a hex digit. -/
def hexVal (c : Char) : Option Nat :=
  if isDigitChar c then some (digitVal c)
  else if 'a' ≤ c ∧ c ≤ 'f' then some (c.toNat - 'a'.toNat + 10)
  else if 'A' ≤ c ∧ c ≤ 'F' then some (c.toNat - 'A'.toNat + 10)
  else none

/-- Parses the body of a JSON string literal after the opening quote,
handling the standard escapes, including a single-code-unit \u escape. -/
def parseJsonString : Nat → List Char → Option (List Char × List Char)
  | 0, _ => none
  | _, [] => none
  | fuel + 1, c :: rest =>
      if c = '"' then some ([], rest)
      else if c = '\\' then
        match rest with
        | [] => none
        | e :: rest2 =>
            let cont (ch : Char) (rem : List Char) : Option (List Char × List Char) :=
              match parseJsonString fuel rem with
              | some (cs, rem2) => some (ch :: cs, rem2)
              | none => none
            if e = '"' then cont '"' rest2
            else if e = '\\' then cont '\\' rest2
            else if e = '/' then cont '/' rest2
            else if e = 'b' then cont (Char.ofNat 8) rest2
            else if e = 'f' then cont (Char.ofNat 12) rest2
            else if e = 'n' then cont '\n' rest2
            else if e = 'r' then cont '\r' rest2
            else if e = 't' then cont '\t' rest2
            else if e = 'u' then
              match rest2 with
              | h1 :: h2 :: h3 :: h4 :: rest3 =>
                  match hexVal h1, hexVal h2, hexVal h3, hexVal h4 with
                  | some a, some b, some cc, some d =>
                      cont (Char.ofNat (((a * 16 + b) * 16 + cc) * 16 + d)) rest3
                  | _, _, _, _ => none
              | _ => none
            else none
      else
        match parseJsonString fuel rest with
        | some (cs, rem2) => some (c :: cs, rem2)
        | none => none

/-- Parses a JSON number after an optional leading minus sign has been
consumed (neg records it): strict integer part, optional fraction,
optional exponent, exactly the RFC 8259 grammar used by json.loads. -/
def parseJsonNumber (neg : Bool) (cs : List Char) : Option (Frac × List Char) :=
  let intPart : Option (Nat × List Char) :=
    match cs with
    | c :: rest =>
        if c = '0' then some (0, rest)
        else if isDigitChar c then
          let (ds, rem) := takeDigits rest
          some (digitsToNat (c :: ds), rem)
        else none
    | [] => none
  match intPart with
  | none => none
  | some (ip, rest1) =>
      let fracPart : Option (Nat × Nat × List Char) :=
        match rest1 with
        | '.' :: rest2 =>
            let (ds, rem) := takeDigits rest2
            if ds = [] then none else some (digitsToNat ds, ds.length, rem)
        | _ => some (0, 0, rest1)
      match fracPart with
      | none => none
      | some (fp, fdigits, rest3) =>
          let expPart : Option (Int × List Char) :=
            match rest3 with
            | e :: rest4 =>
                if e = 'e' ∨ e = 'E' then
                  let sr : Int × List Char :=
                    match rest4 with
                    | '+' :: r => (1, r)
                    | '-' :: r => (-1, r)
                    | r => (1, r)
                  let (ds, rem) := takeDigits sr.2
                  if ds = [] then none else some (sr.1 * digitsToNat ds, rem)
                else some (0, e :: rest4)
            | [] => some (0, [])
          match expPart with
          | none => none
          | some (ex, rest6) =>
              let mantissa : Int := ((ip * 10 ^ fdigits + fp : Nat) : Int)
              let mantissa := if neg then -mantissa else mantissa
              let scaleNum : Int := if 0 ≤ ex then 10 ^ ex.toNat else 1
              let scaleDen : Int := if 0 ≤ ex then 1 else 10 ^ (-ex).toNat
              some (⟨mantissa * scaleNum, (10 ^ fdigits : Int) * scaleDen,
                     by positivity⟩, rest6)

/-- Parser modes: a single value, the items of an array after the opening
bracket, or the entries of an object after the opening brace. -/
inductive JMode where
  | value
  | arrItems (acc : List Json)
  | objItems (acc : List (String × Json))

/-- Partial results of the mode-indexed parser. -/
inductive JRes where
  | value (v : Json)
  | items (vs : List Json)
  | entries (es : List (String × Json))

/-- Fuel-driven recursive-descent JSON parser; structural recursion on the
fuel keeps every run kernel-computable.  Returns the parse result and the
unconsumed characters. -/
def parseJsonCore : Nat → JMode → List Char → Option (JRes × List Char)
  | 0, _, _ => none
  | fuel + 1, .value, cs =>
      match jsonSkipWs cs with
      | [] => none
      | c :: rest =>
          if c = '{' then
            match jsonSkipWs rest with
            | '}' :: rem => some (.value (.obj []), rem)
            | more =>
                match parseJsonCore fuel (.objItems []) more with
                | some (.entries es, rem) => some (.value (.obj es), rem)
                | _ => none
          else if c = '[' then
            match jsonSkipWs rest with
            | ']' :: rem => some (.value (.arr []), rem)
            | more =>
                match parseJsonCore fuel (.arrItems []) more with
                | some (.items vs, rem) => some (.value (.arr vs), rem)
                | _ => none
          else if c = '"' then
            match parseJsonString (fuel + 1) rest with
            | some (body, rem) => some (.value (.str (String.mk body)), rem)
            | none => none
          else if c = 't' then
            match rest with
            | 'r' :: 'u' :: 'e' :: rem => some (.value (.bool true), rem)
            | _ => none
          else if c = 'f' then
            match rest with
            | 'a' :: 'l' :: 's' :: 'e' :: rem => some (.value (.bool false), rem)
            | _ => none
          else if c = 'n' then
            match rest with
            | 'u' :: 'l' :: 'l' :: rem => some (.value .null, rem)
            | _ => none
          else if c = '-' then
            match parseJsonNumber true rest with
            | some (v, rem) => some (.value (.num v), rem)
            | none => none
          else
            match parseJsonNumber false (c :: rest) with
            | some (v, rem) => some (.value (.num v), rem)
            | none => none
  | fuel + 1, .arrItems acc, cs =>
      match parseJsonCore fuel .value cs with
      | some (.value v, rem) =>
          (match jsonSkipWs rem with
           | ',' :: rem2 => parseJsonCore fuel (.arrItems (acc ++ [v])) rem2
           | ']' :: rem2 => some (.items (acc ++ [v]), rem2)
           | _ => none)
      | _ => none
  | fuel + 1, .objItems acc, cs =>
      match jsonSkipWs cs with
      | '"' :: rest2 =>
          (match parseJsonString fuel rest2 with
           | some (key, rem) =>
               (match jsonSkipWs rem with
                | ':' :: rem2 =>
                    (match parseJsonCore fuel .value rem2 with
                     | some (.value v, rem3) =>
                         (match jsonSkipWs rem3 with
                          | ',' :: rem4 =>
                              parseJsonCore fuel
                                (.objItems (acc ++ [(String.mk key, v)])) rem4
                          | '}' :: rem4 =>
                              some (.entries (acc ++ [(String.mk key, v)]), rem4)
                          | _ => none)
                     | _ => none)
                | _ => none)
           | none => none)
      | _ => none

/-- Model of json.loads on a whole string: parse one value and require only
whitespace after it. -/
def jsonLoads (s : String) : Option Json :=
  match parseJsonCore (4 * s.length + 16) .value s.data with
  | some (.value v, rem) => if jsonSkipWs rem = [] then some v else none
  | _ => none

/-- Python str.lower for the ASCII strings this system handles. -/
def pyLower (s : String) : String := String.mk (s.data.map Char.toLower)

/-- Substring test on character lists (Python in operator on str). -/
def containsSub (needle : List Char) : List Char → Bool
  | [] => needle.isEmpty
  | c :: rest => needle.isPrefixOf (c :: rest) || containsSub needle rest

/-- Python substring containment: needle in hay. -/
def pyIn (needle hay : String) : Bool := containsSub needle.data hay.data

/-- Python any(word in hay for word in words). -/
def pyAnyIn (words : List String) (hay : String) : Bool :=
  words.any (fun w => pyIn w hay)

/-- Collector for whitespace-delimited words, accumulating the current word
reversed. -/
def wordsGo (acc : List Char) : List Char → List String
  | [] => if acc.isEmpty then [] else [String.mk acc.reverse]
  | c :: rest =>
      if c.isWhitespace then
        if acc.isEmpty then wordsGo [] rest
        else String.mk acc.reverse :: wordsGo [] rest
      else wordsGo (c :: acc) rest

/-- Python str.split with no argument: split on whitespace runs, dropping
empty pieces. -/
def pySplitWords (s : String) : List String := wordsGo [] s.data

/-- ASCII letter test (the only cased characters in this system). -/
def isAsciiAlpha (c : Char) : Bool :=
  ('a' ≤ c ∧ c ≤ 'z') ∨ ('A' ≤ c ∧ c ≤ 'Z')

/-- Worker for Python str.title, tracking whether the previous character
was cased. -/
def titleGo (prevAlpha : Bool) : List Char → List Char
  | [] => []
  | c :: rest =>
      if isAsciiAlpha c then
        (if prevAlpha then Char.toLower c else Char.toUpper c) :: titleGo true rest
      else c :: titleGo false rest

/-- Python str.title for ASCII strings. -/
def pyTitle (s : String) : String := String.mk (titleGo false s.data)

/-- Worker for Python str.replace with a nonempty pattern; the fuel is the
remaining input length, which each step strictly decreases. -/
def replaceGo (pat repl : List Char) : Nat → List Char → List Char
  | 0, cs => cs
  | _ + 1, [] => []
  | fuel + 1, c :: rest =>
      if pat.isPrefixOf (c :: rest) then
        repl ++ replaceGo pat repl fuel (List.drop (pat.length - 1) rest)
      else c :: replaceGo pat repl fuel rest

/-- Python str.replace(pat, repl) for a nonempty pattern (the sources only
replace single characters). -/
def pyReplace (s pat repl : String) : String :=
  if pat.data.isEmpty then s
  else String.mk (replaceGo pat.data repl.data s.length s.data)

/-- Python indexing v[0] on a parsed JSON value; an error models the
TypeError or KeyError a non-sequence raises. -/
def pyIndex0 : Json → Except Unit Json
  | .arr (e :: _) => .ok e
  | .arr [] => .error ()
  | .str s =>
      match s.data with
      | c :: _ => .ok (.str (String.mk [c]))
      | [] => .error ()
  | _ => .error ()

/-- Coerce a parsed JSON value into a declared str field; a non-string value
is treated as a type error per the conventions in the header. -/
def asStr : Json → Except Unit String
  | .str s => .ok s
  | _ => .error ()

/-- Python dict.get(key, default) coerced into a declared str field. -/
def pyGetStr (entries : List (String × Json)) (key dflt : String) :
    Except Unit String :=
  match Json.objGet entries key with
  | none => .ok dflt
  | some v => asStr v

/-- Coerce a parsed JSON value into a number the way Python arithmetic
would: ints and floats are numbers, bools are 0 or 1, anything else raises
a TypeError at first arithmetic use. -/
def asNum : Json → Except Unit Frac
  | .num v => .ok v
  | .bool b => .ok (Frac.ofInt (if b then 1 else 0))
  | _ => .error ()

/-- Python dict.get(key, default) coerced into a numeric field. -/
def pyGetNum (entries : List (String × Json)) (key : String) (dflt : Frac) :
    Except Unit Frac :=
  match Json.objGet entries key with
  | none => .ok dflt
  | some v => asNum v

/-- Model of re.search of a brace-to-brace span with DOTALL: the greedy
match runs from the first opening brace to the last closing brace after it,
and fails when no such pair exists. -/
def extractJsonSpan (s : String) : Option String :=
  let cs := s.data
  match cs.findIdx? (fun c => c = '{') with
  | none => none
  | some i =>
      match cs.reverse.findIdx? (fun c => c = '}') with
      | none => none
      | some rj =>
          let j := cs.length - 1 - rj
          if i < j then some (String.mk ((cs.drop i).take (j - i + 1))) else none

-- Constants from backend/config.py that the analysis core reads.
namespace Config

def MAX_SEARCH_QUERIES : Nat := 5

def CACHE_TTL : Frac := Frac.ofInt 300

def MAX_AREAS_RETURNED : Int := 10

def MIN_CONFIDENCE_THRESHOLD : Frac := fr 65 100

end Config

/-- Geographic center, the center dict of data_models.AffectedArea. -/
structure LatLong where
  lat : Frac
  long : Frac

/-- Mirror of data_models.AffectedArea (floats as Frac; data_points is
declared int but populated from parsed JSON numbers or a list length). -/
structure AffectedArea where
  area_name : String
  severity : String
  lat_range : List Frac
  long_range : List Frac
  center : LatLong
  reasoning : String
  estimated_impact : String
  confidence : Frac
  data_points : Frac

/-- Mirror of data_models.Event. -/
structure Event where
  event_id : String
  event_name : String
  event_type : String
  timeframe : String
  affected_areas : List AffectedArea

/-- Mirror of data_models.EventMetadata; the events, search_queries,
requires_weather_data and geographic_scope fields hold whatever shape the
model response supplied, so they stay Json. -/
structure EventMetadata where
  events : Json
  search_queries : Json
  requires_weather_data : Json
  geographic_scope : Json

/-- One web search result dict; every field is optional, matching the
dict.get access pattern in the sources. -/
structure WebResult where
  title : Option String
  snippet : Option String
  url : Option String
  date : Option String
  source : Option String
deriving DecidableEq

/-- Mirror of data_models.IntelligenceData. -/
structure IntelligenceData where
  web_results : List WebResult
  weather_data : Option Json
  total_data_points : Nat
  search_queries_used : Json

/-- The analysis_metadata dict built by the orchestrator. -/
structure AnalysisMetadata where
  web_searches_performed : Nat
  weather_api_calls : Nat
  total_data_points_analyzed : Nat
  analysis_duration_ms : Int
  data_sources : List String
  search_queries_used : Json
  filters_max_areas : Int
  filters_min_confidence : Frac

/-- Mirror of data_models.AnalysisResult. -/
structure AnalysisResult where
  query : String
  timestamp : String
  summary : String
  events : List Event
  total_events : Nat
  total_affected_areas : Nat
  analysis_metadata : AnalysisMetadata

-- Stage 1, backend/agents/event_intelligence.py.
namespace EventIntelligenceAgent

/-- Mirror of EventIntelligenceAgent._parse_response: extract the regex
span, run json.loads, require the events and search_queries keys, truncate
search_queries to the configured maximum.  An Except.error stands for the
ValueError or TypeError the Python code raises. -/
def _parse_response (response : String) : Except String EventMetadata :=
  match extractJsonSpan response with
  | none => .error "No JSON found in response"
  | some span =>
      match jsonLoads span with
      | none => .error "json decode failure"
      | some (.obj entries) =>
          if (Json.objGet entries "events").isNone then
            .error "Missing required fields in JSON"
          else if (Json.objGet entries "search_queries").isNone then
            .error "Missing required fields in JSON"
          else
            match Json.pySliceTo (Json.objGetD entries "search_queries" (.arr []))
                Config.MAX_SEARCH_QUERIES with
            | none => .error "TypeError: unsliceable search_queries"
            | some sq =>
                .ok ⟨Json.objGetD entries "events" (.arr []), sq,
                     Json.objGetD entries "requires_weather_data" (.bool false),
                     Json.objGetD entries "geographic_scope" (.str "region")⟩
      | some _ =>
          -- unreachable: the extracted span always starts with a brace
          .error "TypeError"

/-- Mirror of EventIntelligenceAgent._generate_fallback_metadata: the
deterministic rule-based extractor. -/
def _generate_fallback_metadata (question : String) : EventMetadata :=
  let question_lower := pyLower question
  let event_type :=
    if pyAnyIn ["storm", "ice", "snow", "rain", "weather"] question_lower then
      "weather_related_outage"
    else if pyAnyIn ["power", "electricity", "grid"] question_lower then
      "power_outage"
    else if pyAnyIn ["equipment", "tower", "failure"] question_lower then
      "equipment_failure"
    else "unknown"
  let location :=
    if pyIn "toronto" question_lower then "Toronto"
    else if pyIn "mississauga" question_lower then "Mississauga"
    else if pyIn "vancouver" question_lower then "Vancouver"
    else if pyIn "montreal" question_lower then "Montreal"
    else "Toronto"
  let timeframe :=
    if pyAnyIn ["today", "now", "current"] question_lower then "today"
    else if pyAnyIn ["yesterday"] question_lower then "yesterday"
    else if pyAnyIn ["last week", "this week"] question_lower then "this week"
    else "recent"
  let search_queries : List String :=
    [location ++ " network outage " ++ timeframe,
     "telus " ++ location ++ " service disruption",
     location ++ " cellular network down",
     event_type ++ " " ++ location ++ " telecommunications",
     location ++ " cell tower outage " ++ timeframe]
  { events := .arr [.obj
      [("event_type", .str event_type),
       ("primary_location", .str location),
       ("timeframe", .str timeframe),
       ("keywords", .arr (((pySplitWords question).take 5).map Json.str))]],
    search_queries :=
      .arr ((search_queries.take Config.MAX_SEARCH_QUERIES).map Json.str),
    requires_weather_data := .bool (event_type = "weather_related_outage"),
    geographic_scope := .str "city" }

/-- Mirror of EventIntelligenceAgent.analyze_query.  The model response (or
its timeout) is supplied by the oracle; a ModelTimeoutError raised by
call_gemma propagates, while every parse failure is caught and answered by
the fallback. -/
def analyze_query (question : String) (modelOutcome : Except Unit String) :
    Except Unit EventMetadata :=
  match modelOutcome with
  | .error e => .error e
  | .ok response =>
      match _parse_response response with
      | .ok m => .ok m
      | .error _ => .ok (_generate_fallback_metadata question)

end EventIntelligenceAgent

-- Stage 2, backend/agents/web_intelligence.py.
namespace WebIntelligenceAgent

/-- Worker for _deduplicate_results: seen is the set of urls already kept. -/
def dedupGo (seen : List String) : List WebResult → List WebResult
  | [] => []
  | r :: rest =>
      let url := r.url.getD ""
      if url ≠ "" ∧ ¬ seen.contains url then r :: dedupGo (url :: seen) rest
      else dedupGo seen rest

/-- Mirror of WebIntelligenceAgent._deduplicate_results: drop results with a
missing or empty url, keep the first occurrence of every other url. -/
def _deduplicate_results (results : List WebResult) : List WebResult :=
  dedupGo [] results

/-- The hardcoded city gazetteer of _get_location_coordinates, in source
order. -/
def CITY_COORDS : List (String × Frac × Frac) :=
  [("toronto", fr 436532 10000, fr (-793832) 10000),
   ("mississauga", fr 435890 10000, fr (-796441) 10000),
   ("vancouver", fr 492827 10000, fr (-1231207) 10000),
   ("montreal", fr 455017 10000, fr (-735673) 10000),
   ("calgary", fr 510447 10000, fr (-1140719) 10000),
   ("ottawa", fr 454215 10000, fr (-756972) 10000),
   ("edmonton", fr 535461 10000, fr (-1134938) 10000),
   ("winnipeg", fr 498951 10000, fr (-971384) 10000),
   ("quebec city", fr 468139 10000, fr (-712080) 10000),
   ("hamilton", fr 432557 10000, fr (-798711) 10000)]

/-- First gazetteer entry whose key occurs in the location string. -/
def cityLookup (location : String) : List (String × Frac × Frac) →
    Option (Frac × Frac)
  | [] => none
  | (city, la, lo) :: rest =>
      if pyIn city location then some (la, lo) else cityLookup location rest

/-- Mirror of WebIntelligenceAgent._get_location_coordinates: the location
of the first event, lowercased, matched against the gazetteer, defaulting
to Toronto; no events means no coordinates; a first event that is not a
dict of strings raises. -/
def _get_location_coordinates (m : EventMetadata) :
    Except Unit (Option (Frac × Frac)) := do
  if ¬ Json.truthy m.events then
    .ok none
  else
    let ev ← pyIndex0 m.events
    let entries ← (match ev with
      | .obj es => Except.ok es
      | _ => Except.error ())
    let loc0 ← pyGetStr entries "primary_location" ""
    let location := pyLower loc0
    match cityLookup location CITY_COORDS with
    | some coords => .ok (some coords)
    | none => .ok (some (fr 436532 10000, fr (-793832) 10000))

/-- Mirror of WebIntelligenceAgent._gather_weather_data: no fetch when the
metadata does not ask for weather or no coordinates resolve; a fetch error
is absorbed into None. -/
def _gather_weather_data (m : EventMetadata)
    (weatherOutcome : Except Unit Json) : Except Unit (Option Json) := do
  if ¬ Json.truthy m.requires_weather_data then
    .ok none
  else
    let coords ← _get_location_coordinates m
    match coords with
    | none => .ok none
    | some _ =>
        match weatherOutcome with
        | .ok w => .ok (some w)
        | .error _ => .ok none

/-- Number of weather fetches _gather_weather_data attempts. -/
def weatherCalls (m : EventMetadata) : Except Unit Nat := do
  if ¬ Json.truthy m.requires_weather_data then
    .ok 0
  else
    let coords ← _get_location_coordinates m
    .ok (match coords with | none => 0 | some _ => 1)

/-- Mirror of WebIntelligenceAgent.gather_intelligence: fan out one search
per query (the flattened, per-query-truncated output is supplied by the
oracle), deduplicate, attach best-effort weather.  Iterating a
non-sequence search_queries raises. -/
def gather_intelligence (m : EventMetadata) (searchOutput : List WebResult)
    (weatherOutcome : Except Unit Json) : Except Unit IntelligenceData := do
  let _qlen ← (match Json.pyLen m.search_queries with
    | some n => Except.ok n
    | none => Except.error ())
  let web_results := _deduplicate_results searchOutput
  let weather ← _gather_weather_data m weatherOutcome
  .ok ⟨web_results, weather, web_results.length, m.search_queries⟩

end WebIntelligenceAgent

-- Stage 3, backend/agents/geospatial_reasoning.py.
namespace GeospatialReasoningAgent

/-- Mirror of GeospatialReasoningAgent._create_affected_area.  The only
numeric failure is the ZeroDivisionError of the longitude offset when the
center latitude is zero, modelled by the explicit zero test on the exact
value; there is no minimum-latitude floor in the source. -/
def _create_affected_area (area_data : Json) : Except Unit AffectedArea := do
  let entries ← (match area_data with
    | .obj es => Except.ok es
    | _ => Except.error ())
  let center_lat ← pyGetNum entries "latitude" (fr 4365 100)
  let center_lon ← pyGetNum entries "longitude" (fr (-7938) 100)
  let radius_km ← pyGetNum entries "radius_km" (fr 2 1)
  let lat_offset := Frac.div radius_km (Frac.ofInt 111)
  if Frac.eqv center_lat (Frac.ofInt 0) then .error () else
  let lon_offset := Frac.div radius_km
    (Frac.mul (Frac.ofInt 111) (Frac.abs (Frac.div center_lat (Frac.ofInt 90))))
  let area_name ← pyGetStr entries "area_name" "Unknown Area"
  let severity ← pyGetStr entries "severity" "moderate"
  let reasoning ← pyGetStr entries "reasoning" "No reasoning provided"
  let estimated ← pyGetStr entries "estimated_users" "Unknown"
  let confidence ← pyGetNum entries "confidence" (fr 7 10)
  let data_points ← pyGetNum entries "supporting_data_points" (Frac.ofInt 0)
  .ok { area_name := area_name,
        severity := severity,
        lat_range := [Frac.round6 (Frac.sub center_lat lat_offset),
                      Frac.round6 (Frac.add center_lat lat_offset)],
        long_range := [Frac.round6 (Frac.sub center_lon lon_offset),
                       Frac.round6 (Frac.add center_lon lon_offset)],
        center := ⟨Frac.round6 center_lat, Frac.round6 center_lon⟩,
        reasoning := reasoning,
        estimated_impact := estimated,
        confidence := confidence,
        data_points := data_points }

/-- Mirror of GeospatialReasoningAgent._create_event_from_data. -/
def _create_event_from_data (event_data : Json) (event_id : String) :
    Except Unit Event := do
  let entries ← (match event_data with
    | .obj es => Except.ok es
    | _ => Except.error ())
  let areasJson ← (match Json.objGetD entries "affected_areas" (.arr []) with
    | .arr xs => Except.ok xs
    | _ => Except.error ())
  let areas ← areasJson.mapM _create_affected_area
  let event_name ← pyGetStr entries "event_name" "Unnamed Event"
  let event_type ← pyGetStr entries "event_type" "unknown"
  let timeframe ← pyGetStr entries "timeframe" "Unknown timeframe"
  .ok ⟨event_id, event_name, event_type, timeframe, areas⟩

/-- Sequential event identifiers evt_001, evt_002, and so on, the 03d
format of the source. -/
def evtId (n : Nat) : String :=
  "evt_" ++ (if n < 10 then "00" else if n < 100 then "0" else "") ++ toString n

/-- Mirror of GeospatialReasoningAgent._parse_analysis. -/
def _parse_analysis (response : String) : Except Unit (List Event) :=
  match extractJsonSpan response with
  | none => .error ()
  | some span =>
      match jsonLoads span with
      | none => .error ()
      | some (.obj entries) =>
          if (Json.objGet entries "events").isNone then .error ()
          else
            match Json.objGetD entries "events" .null with
            | .arr evs =>
                evs.enum.mapM (fun p => _create_event_from_data p.2 (evtId (p.1 + 1)))
            | _ => .error ()
      | some _ => .error ()

/-- Mirror of GeospatialReasoningAgent._generate_fallback_events: one
synthetic event over one default area.  An error raised while reading a
malformed first metadata event propagates, because the Python fallback runs
inside an except handler with no further protection. -/
def _generate_fallback_events (m : EventMetadata) (intel : IntelligenceData) :
    Except Unit (List Event) := do
  let event_info ← (if Json.truthy m.events then pyIndex0 m.events
                    else Except.ok (Json.obj []))
  let entries ← (match event_info with
    | .obj es => Except.ok es
    | _ => Except.error ())
  let loc ← pyGetStr entries "primary_location" "Toronto"
  let locB ← pyGetStr entries "primary_location" "area"
  let et ← pyGetStr entries "event_type" "Network"
  let etB ← pyGetStr entries "event_type" "unknown"
  let locC ← pyGetStr entries "primary_location" "Unknown"
  let tf ← pyGetStr entries "timeframe" "Recent"
  let n := intel.web_results.length
  let area : AffectedArea :=
    { area_name := loc ++ " Area",
      severity := "moderate",
      lat_range := [fr 4360 100, fr 4370 100],
      long_range := [fr (-7943) 100, fr (-7933) 100],
      center := ⟨fr 4365 100, fr (-7938) 100⟩,
      reasoning := "Fallback area generated from " ++ toString n ++
        " web sources. Analysis indicates potential network disruption " ++
        "based on search results mentioning service issues in the " ++
        locB ++ ".",
      estimated_impact := "~10,000 users (estimated)",
      confidence := fr 6 10,
      data_points := Frac.ofInt n }
  .ok [⟨"evt_001", pyTitle (pyReplace et "_" " ") ++ " - " ++ locC, etB, tf, [area]⟩]

/-- Mirror of GeospatialReasoningAgent.analyze_impact: a timeout from the
model client propagates; a parse failure is answered by the fallback. -/
def analyze_impact (m : EventMetadata) (intel : IntelligenceData)
    (modelOutcome : Except Unit String) : Except Unit (List Event) :=
  match modelOutcome with
  | .error e => .error e
  | .ok response =>
      match _parse_analysis response with
      | .ok evs => .ok evs
      | .error _ => _generate_fallback_events m intel

end GeospatialReasoningAgent

-- TTL cache, backend/utils/cache.py.
namespace SimpleCache

/-- Cache state: entries pair each key with its value and write timestamp.
The Python dict is modelled as an association list whose keys stay unique
because writes replace the previous binding. -/
structure CacheState where
  entries : List (String × AnalysisResult × Frac)

/-- Association-list lookup. -/
def lookupEntry : List (String × AnalysisResult × Frac) → String →
    Option (AnalysisResult × Frac)
  | [], _ => none
  | (k, v, ts) :: rest, key =>
      if k = key then some (v, ts) else lookupEntry rest key

/-- Mirror of SimpleCache.get at wall-clock now: a fresh entry is returned
and left in place, an expired entry is deleted, a missing key is a miss. -/
def get (c : CacheState) (key : String) (now ttl : Frac) :
    Option AnalysisResult × CacheState :=
  match lookupEntry c.entries key with
  | none => (none, c)
  | some (v, ts) =>
      if Frac.sub now ts < ttl then (some v, c)
      else (none, ⟨c.entries.filter (fun e => e.1 ≠ key)⟩)

/-- Mirror of SimpleCache.set: bind key to the value with the current
timestamp, replacing any previous binding. -/
def set (c : CacheState) (key : String) (v : AnalysisResult) (now : Frac) :
    CacheState :=
  ⟨(key, v, now) :: c.entries.filter (fun e => e.1 ≠ key)⟩

end SimpleCache

/-- Oracle for one pipeline invocation: what each remote call would return
for this request, plus the wall-clock readings the orchestrator takes.  A
deterministic Env makes the embedded pipeline a function, which is exactly
the cache-consistency contract under test. -/
structure Env where
  stage1Response : Except Unit String
  searchOutput : List WebResult
  weatherOutcome : Except Unit Json
  stage3Response : Except Unit String
  getTime : Frac
  setTime : Frac
  timestamp : String
  durationMs : Int

/-- External calls performed during one invocation: model-endpoint calls,
web searches issued, weather fetches attempted. -/
structure CallCounts where
  model : Nat
  search : Nat
  weather : Nat

-- Orchestrator, backend/orchestrator.py.
namespace NetworkImpactOrchestrator

/-- The options dict read by analyze, with the config defaults filled in by
the caller. -/
structure Options where
  max_areas : Int
  min_confidence : Frac
  include_reasoning : Bool

/-- Options as defaulted from config. -/
def defaultOptions : Options :=
  ⟨Config.MAX_AREAS_RETURNED, Config.MIN_CONFIDENCE_THRESHOLD, true⟩

/-- Stable insertion of an area into a confidence-descending list: the new
area, which precedes the list elements in the original order, goes before
the first element whose confidence does not exceed it. -/
def insertDesc (a : AffectedArea) : List AffectedArea → List AffectedArea
  | [] => [a]
  | b :: rest =>
      if b.confidence ≤ a.confidence then a :: b :: rest
      else b :: insertDesc a rest

/-- Stable sort by confidence descending, the effect of the Python
list.sort(key, reverse=True) call: equal confidences keep their original
relative order, which pins down one ordering, so any stable algorithm is
the same function. -/
def sortByConfDesc : List AffectedArea → List AffectedArea
  | [] => []
  | a :: rest => insertDesc a (sortByConfDesc rest)

/-- Python slice l[:m] over an int m: a negative stop drops the last |m|
elements rather than truncating to a prefix of length m. -/
def pySliceStop {α : Type} (l : List α) (m : Int) : List α :=
  if m < 0 then l.take ((l.length : Int) + m).toNat else l.take m.toNat

/-- Total number of affected areas across a list of events, the count the
orchestrator reports as total_affected_areas. -/
def totalAreas (events : List Event) : Nat :=
  (events.map (fun e => e.affected_areas.length)).sum

/-- Mirror of NetworkImpactOrchestrator._filter_events: per event, keep
areas at or above the confidence threshold, sort by confidence descending,
truncate with the Python slice, and drop the event if nothing is left. -/
def _filter_events (events : List Event) (max_areas : Int)
    (min_confidence : Frac) : List Event :=
  events.filterMap (fun event =>
    let filtered := event.affected_areas.filter
      (fun a => min_confidence ≤ a.confidence)
    let limited := pySliceStop (sortByConfDesc filtered) max_areas
    if limited.isEmpty then none
    else some { event with affected_areas := limited })

/-- Mirror of NetworkImpactOrchestrator._remove_reasoning. -/
def _remove_reasoning (events : List Event) : List Event :=
  events.map (fun e =>
    { e with affected_areas := e.affected_areas.map (fun a =>
        { a with reasoning :=
            "Reasoning omitted (set include_reasoning=true to see details)" }) })

/-- Mirror of NetworkImpactOrchestrator._generate_summary. -/
def _generate_summary (events : List Event) (total_areas : Nat) : String :=
  if events.isEmpty then
    "No significant network impacts detected based on available data. " ++
    "This could indicate either no current outages or insufficient data sources."
  else
    let event_names := (events.take 3).map (fun e => e.event_name)
    let s1 := "Analysis identified " ++ toString events.length ++
      " distinct event(s) affecting " ++ toString total_areas ++ " area(s). "
    let s2 :=
      if events.length = 1 then "Primary event: " ++ event_names.headD "" ++ ". "
      else "Events detected: " ++ String.intercalate ", " event_names ++ ". "
    let sevCount (k : String) : Nat :=
      (events.map (fun e =>
        e.affected_areas.countP (fun a => pyLower a.severity = k))).sum
    let s3 :=
      if 0 < sevCount "critical" then
        toString (sevCount "critical") ++
        " area(s) experiencing critical service disruption. "
      else if 0 < sevCount "high" then
        toString (sevCount "high") ++ " area(s) experiencing high-severity impact. "
      else "Impact levels range from moderate to low. "
    let sumConf : Frac :=
      (events.map (fun e => e.affected_areas)).flatten.foldr
        (fun a acc => Frac.add a.confidence acc) (Frac.ofInt 0)
    let avg : Frac :=
      if 0 < total_areas then Frac.div sumConf (Frac.ofInt total_areas)
      else Frac.ofInt 0
    let s4 :=
      if fr 8 10 ≤ avg then "Analysis confidence: High."
      else if fr 7 10 ≤ avg then "Analysis confidence: Moderate."
      else "Analysis confidence: Limited data available."
    s1 ++ s2 ++ s3 ++ s4

/-- Mirror of NetworkImpactOrchestrator.validate_question. -/
def validate_question (question : String) : Bool × String :=
  if question.data.all Char.isWhitespace then (false, "Question cannot be empty")
  else if question.length < 10 then
    (false, "Question too short (minimum 10 characters)")
  else if 500 < question.length then
    (false, "Question too long (maximum 500 characters)")
  else (true, "")

/-- Steps 1 through 6 of NetworkImpactOrchestrator.analyze after a cache
miss: the three agent stages, filtering, optional redaction, summary and
result assembly, together with the external calls performed. -/
def runPipeline (question : String) (opts : Options) (env : Env) :
    Except Unit (AnalysisResult × CallCounts) := do
  let metadata ← EventIntelligenceAgent.analyze_query question env.stage1Response
  let intel ← WebIntelligenceAgent.gather_intelligence metadata
    env.searchOutput env.weatherOutcome
  let events0 ← GeospatialReasoningAgent.analyze_impact metadata intel
    env.stage3Response
  let events1 := _filter_events events0 opts.max_areas opts.min_confidence
  let events2 := if opts.include_reasoning then events1
                 else _remove_reasoning events1
  let total_areas := totalAreas events2
  let summary := _generate_summary events2 total_areas
  let nq := (Json.pyLen intel.search_queries_used).getD 0
  let wcalls ← WebIntelligenceAgent.weatherCalls metadata
  let wTruthy := match intel.weather_data with
    | some w => Json.truthy w
    | none => false
  let result : AnalysisResult :=
    { query := question,
      timestamp := env.timestamp,
      summary := summary,
      events := events2,
      total_events := events2.length,
      total_affected_areas := total_areas,
      analysis_metadata :=
        { web_searches_performed := nq,
          weather_api_calls := if wTruthy then 1 else 0,
          total_data_points_analyzed := intel.total_data_points,
          analysis_duration_ms := env.durationMs,
          data_sources := if wTruthy then ["web_search", "openweathermap"]
                          else ["web_search"],
          search_queries_used := intel.search_queries_used,
          filters_max_areas := opts.max_areas,
          filters_min_confidence := opts.min_confidence } }
  .ok (result, ⟨2, nq, wcalls⟩)

/-- Mirror of NetworkImpactOrchestrator.analyze: cache-aside around the
pipeline.  A hit (dataclass instances are always truthy) returns the cached
value and performs no external call; a miss runs the pipeline and caches
the final result under analysis_ plus the verbatim question. -/
def analyze (question : String) (opts : Options) (env : Env)
    (c : SimpleCache.CacheState) :
    Except Unit (AnalysisResult × SimpleCache.CacheState × CallCounts) :=
  let cache_key := "analysis_" ++ question
  match SimpleCache.get c cache_key env.getTime Config.CACHE_TTL with
  | (some cached, c2) => .ok (cached, c2, ⟨0, 0, 0⟩)
  | (none, c2) =>
      match runPipeline question opts env with
      | .error e => .error e
      | .ok (result, counts) =>
          .ok (result, SimpleCache.set c2 cache_key result env.setTime, counts)

end NetworkImpactOrchestrator

-- Model client retry loop, backend/services/ai_client.py.
namespace AIModelClient

/-- What one HTTP attempt of call_model observes: a 200 response with its
body text, a non-2xx status, a timeout, an aiohttp client error, or an
unexpected exception.  Cancellation, which re-raises immediately, is
outside the retry semantics under test. -/
inductive AttemptOutcome where
  | success (text : String)
  | httpError (status : Nat)
  | timeout
  | netError
  | otherError
deriving DecidableEq

/-- Whether an attempt outcome makes call_model return its text. -/
def attemptSucceeds : AttemptOutcome → Bool
  | .success t => t ≠ ""
  | _ => false

/-- The failure kinds reached through an except handler, the only ones the
source follows with a backoff sleep. -/
def isExceptionFailure : AttemptOutcome → Bool
  | .timeout => true
  | .netError => true
  | .otherError => true
  | _ => false

/-- Worker for call_model: attempt is the current zero-based attempt index,
anyTimeout records whether any attempt so far timed out, and the list holds
the outcomes the remaining attempts would observe (its initial length is
max_retries, so the source guard attempt < max_retries - 1 is exactly the
remaining list being nonempty).  Returns the call result - Except.error is
the raised ModelTimeoutError, Except.ok the returned text - together with
the backoff delays slept, in order. -/
def call_model_go (attempt : Nat) (anyTimeout : Bool) :
    List AttemptOutcome → Except Unit String × List Nat
  | [] => (if anyTimeout then .error () else .ok "", [])
  | o :: rest =>
      match o with
      | .success t =>
          if t = "" then call_model_go (attempt + 1) anyTimeout rest
          else (.ok t, [])
      | .httpError _ => call_model_go (attempt + 1) anyTimeout rest
      | .timeout =>
          let r := call_model_go (attempt + 1) true rest
          if rest.isEmpty then r else (r.1, 2 ^ attempt :: r.2)
      | .netError =>
          let r := call_model_go (attempt + 1) anyTimeout rest
          if rest.isEmpty then r else (r.1, 2 ^ attempt :: r.2)
      | .otherError =>
          let r := call_model_go (attempt + 1) anyTimeout rest
          if rest.isEmpty then r else (r.1, 2 ^ attempt :: r.2)

/-- Mirror of AIModelClient.call_model as a function of the per-attempt
outcomes (one entry per configured attempt). -/
def call_model (attempts : List AttemptOutcome) : Except Unit String × List Nat :=
  call_model_go 0 false attempts

end AIModelClient

/-!
Concrete data used by the example theorems below: the end-to-end question
of the test plan, a response that parses to empty lists, oracle
environments, and sample evidence lists.
-/

/-- The end-to-end scenario question from the test plan. -/
def iceStormQuestion : String :=
  "What areas were affected by the ice storm in Toronto yesterday?"

/-- A model response that parses successfully but carries empty events and
search_queries lists. -/
def emptyListsResponse : String :=
  "\x7b\"events\": [], \"search_queries\": []\x7d"

/-- Number of events of a stage 1 result, through Python len. -/
def metaEventsLen : Except Unit EventMetadata → Option Nat
  | .ok m => Json.pyLen m.events
  | .error _ => none

/-- Number of search queries of a stage 1 result, through Python len. -/
def metaQueriesLen : Except Unit EventMetadata → Option Nat
  | .ok m => Json.pyLen m.search_queries
  | .error _ => none

/-- A sample web search result. -/
def sampleResult (title url : String) : WebResult :=
  ⟨some title, some "Multiple providers report service disruptions.", some url,
   some "2026-01-11T08:00:00", some "Local News Network"⟩

/-- Placeholder metadata record for unreachable match arms. -/
def dummyAnalysisMetadata : AnalysisMetadata :=
  ⟨0, 0, 0, 0, [], .null, 0, fr 0 1⟩

/-- Placeholder result record for unreachable match arms. -/
def dummyResult : AnalysisResult :=
  ⟨"", "", "", [], 0, 0, dummyAnalysisMetadata⟩

/-- The empty cache. -/
def emptyCache : SimpleCache.CacheState := ⟨[]⟩

/-- Oracle for a first pipeline run: both model calls return text with no
JSON span, so both stages fall back; the weather fetch fails and is
absorbed. -/
def c5Env1 : Env :=
  ⟨.ok "", [sampleResult "Ice storm outage report"
              "https://news.example.com/network-outage-ice-storm"],
   .error (), .ok "", fr 0 1, fr 1 1, "2026-01-11T09:00:00", 1200⟩

/-- Oracle for a second, back-to-back run: every remote call would fail, so
any external call the second run made would surface; a cache hit makes the
run succeed anyway. -/
def c5Env2 : Env :=
  ⟨.error (), [], .error (), .error (), fr 2 1, fr 3 1,
   "2026-01-11T09:00:05", 3⟩

/-- The first run of the back-to-back pair, started on the empty cache. -/
def c5FirstRun : AnalysisResult × SimpleCache.CacheState × CallCounts :=
  match NetworkImpactOrchestrator.analyze iceStormQuestion
      NetworkImpactOrchestrator.defaultOptions c5Env1 emptyCache with
  | .ok p => p
  | .error _ => (dummyResult, emptyCache, ⟨0, 0, 0⟩)

/-- Result of the first run. -/
def c5R : AnalysisResult := c5FirstRun.1

/-- Cache state after the first run. -/
def c5C1 : SimpleCache.CacheState := c5FirstRun.2.1

/-- External calls of the first run. -/
def c5K : CallCounts := c5FirstRun.2.2

/-- An affected area with the given confidence, for filter examples. -/
def confArea (conf : Frac) : AffectedArea :=
  ⟨"Area", "moderate", [fr 4360 100, fr 4370 100],
   [fr (-7943) 100, fr (-7933) 100], ⟨fr 4365 100, fr (-7938) 100⟩,
   "reported by several sources", "~1,000 users", conf, fr 1 1⟩

/-- An event with two high-confidence areas, for the filter examples. -/
def twoAreaEvent : Event :=
  ⟨"evt_001", "Test Event", "unknown", "recent",
   [confArea (fr 9 10), confArea (fr 8 10)]⟩

/-- Length of the Python slice l[:m], as a function of the list length. -/
def sliceLen (m : Int) (n : Nat) : Nat :=
  if m < 0 then ((n : Int) + m).toNat else min m.toNat n

/-- Areas one event contributes to the filtered output. -/
def eventContribution (m : Int) (c : Frac) (e : Event) : Nat :=
  (NetworkImpactOrchestrator.pySliceStop
    (NetworkImpactOrchestrator.sortByConfDesc
      (e.affected_areas.filter (fun a => c ≤ a.confidence))) m).length

/-- The single event dict of the expected stage 1 fallback metadata. -/
def c8EventEntries : List (String × Json) :=
  [("event_type", .str "weather_related_outage"),
   ("primary_location", .str "Toronto"),
   ("timeframe", .str "yesterday"),
   ("keywords", .arr [.str "What", .str "areas", .str "were",
                      .str "affected", .str "by"])]

/-- The stage 1 fallback metadata the end-to-end question must produce,
written out in full. -/
def c8ExpectedMetadata : EventMetadata :=
  { events := .arr [.obj c8EventEntries],
    search_queries := .arr
      [.str "Toronto network outage yesterday",
       .str "telus Toronto service disruption",
       .str "Toronto cellular network down",
       .str "weather_related_outage Toronto telecommunications",
       .str "Toronto cell tower outage yesterday"],
    requires_weather_data := .bool true,
    geographic_scope := .str "city" }

/-- The stage 3 fallback area over n evidence items, for the end-to-end
scenario metadata. -/
def c8FallbackArea (n : Nat) : AffectedArea :=
  { area_name := "Toronto" ++ " Area",
    severity := "moderate",
    lat_range := [fr 4360 100, fr 4370 100],
    long_range := [fr (-7943) 100, fr (-7933) 100],
    center := ⟨fr 4365 100, fr (-7938) 100⟩,
    reasoning := "Fallback area generated from " ++ toString n ++
      " web sources. Analysis indicates potential network disruption " ++
      "based on search results mentioning service issues in the " ++
      "Toronto" ++ ".",
    estimated_impact := "~10,000 users (estimated)",
    confidence := fr 6 10,
    data_points := Frac.ofInt n }

/-- The stage 3 fallback event over n evidence items, for the end-to-end
scenario metadata. -/
def c8FallbackEvent (n : Nat) : Event :=
  ⟨"evt_001", "Weather Related Outage" ++ " - " ++ "Toronto",
   "weather_related_outage", "yesterday", [c8FallbackArea n]⟩

/-- The area dict of the coordinate-range example: center at Toronto,
radius two kilometres. -/
def c9Input : Json :=
  .obj [("latitude", .num (fr 4365 100)),
        ("longitude", .num (fr (-7938) 100)),
        ("radius_km", .num (fr 2 1))]

/-- The area the coordinate-range example produces. -/
def c9Area : AffectedArea :=
  match GeospatialReasoningAgent._create_affected_area c9Input with
  | .ok a => a
  | .error _ => confArea (fr 0 1)

/-- Evidence list with a missing url, an empty url, and a duplicated url. -/
def c10Results : List WebResult :=
  [⟨some "no url field", some "snippet", none, none, none⟩,
   ⟨some "empty url", some "snippet", some "", none, none⟩,
   sampleResult "first" "https://a.example/x",
   sampleResult "second" "https://b.example/y",
   sampleResult "duplicate of first" "https://a.example/x"]

/-- Evidence list with distinct titles and a repeated url. -/
def c7Results : List WebResult :=
  [sampleResult "first report" "https://news.example.com/one",
   sampleResult "second report" "https://forum.example.com/two",
   sampleResult "same page again" "https://news.example.com/one"]

/-- Total extraction of the area of a stage 3 construction, with a
placeholder for the raising case. -/
def areaOf (r : Except Unit AffectedArea) : AffectedArea :=
  match r with
  | .ok a => a
  | .error _ => confArea (fr 0 1)

/-- The gathered bundle over that evidence list. -/
def c10Intel : IntelligenceData :=
  match WebIntelligenceAgent.gather_intelligence c8ExpectedMetadata
      c10Results (.error ()) with
  | .ok i => i
  | .error _ => ⟨[], none, 0, .null⟩

/-!
Bridge lemmas from Frac to the Mathlib rationals: every operation of the
computable representation denotes the corresponding rational operation, and
the computable order is the rational order.
-/

namespace Frac

theorem den_pos_rat (a : Frac) : (0 : ℚ) < (a.den : ℚ) := by
  exact_mod_cast a.den_pos

theorem den_ne (a : Frac) : ((a.den : ℚ)) ≠ 0 := ne_of_gt a.den_pos_rat

theorem toRat_ofInt (n : Int) : (ofInt n).toRat = (n : ℚ) := by
  simp [toRat, ofInt]

theorem toRat_add (a b : Frac) : (add a b).toRat = a.toRat + b.toRat := by
  have ha := a.den_ne
  have hb := b.den_ne
  simp only [toRat, add]
  push_cast
  field_simp

theorem toRat_sub (a b : Frac) : (sub a b).toRat = a.toRat - b.toRat := by
  have ha := a.den_ne
  have hb := b.den_ne
  simp only [toRat, sub]
  push_cast
  field_simp
  ring

theorem toRat_mul (a b : Frac) : (mul a b).toRat = a.toRat * b.toRat := by
  simp only [toRat, mul]
  push_cast
  rw [div_mul_div_comm]

theorem toRat_abs (a : Frac) : a.abs.toRat = |a.toRat| := by
  simp only [toRat, abs]
  rw [abs_div, abs_of_pos a.den_pos_rat]
  push_cast
  rfl

theorem toRat_inv (a : Frac) : a.inv.toRat = a.toRat⁻¹ := by
  unfold inv
  split_ifs with h1 h2
  · simp only [toRat]
    rw [inv_div]
  · simp only [toRat]
    push_cast
    rw [neg_div_neg_eq, inv_div]
  · have hz : a.num = 0 := by omega
    simp [toRat, hz]

theorem toRat_div (a b : Frac) : (div a b).toRat = a.toRat / b.toRat := by
  rw [div, toRat_mul, toRat_inv, div_eq_mul_inv]

theorem le_iff (a b : Frac) : a.le b ↔ a.toRat ≤ b.toRat := by
  unfold le toRat
  rw [div_le_div_iff₀ a.den_pos_rat b.den_pos_rat]
  constructor
  · intro h
    exact_mod_cast h
  · intro h
    exact_mod_cast h

theorem lt_iff (a b : Frac) : a.lt b ↔ a.toRat < b.toRat := by
  unfold lt toRat
  rw [div_lt_div_iff₀ a.den_pos_rat b.den_pos_rat]
  constructor
  · intro h
    exact_mod_cast h
  · intro h
    exact_mod_cast h

theorem eqv_iff (a b : Frac) : eqv a b ↔ a.toRat = b.toRat := by
  unfold eqv toRat
  rw [div_eq_div_iff a.den_ne b.den_ne]
  constructor
  · intro h
    exact_mod_cast h
  · intro h
    exact_mod_cast h

theorem le_trans {a b c : Frac} (h1 : a.le b) (h2 : b.le c) : a.le c :=
  (le_iff a c).mpr (((le_iff a b).mp h1).trans ((le_iff b c).mp h2))

theorem floor_eq (a : Frac) : a.floor = ⌊a.toRat⌋ := by
  have hd : ((a.den.toNat : ℤ)) = a.den := Int.toNat_of_nonneg (le_of_lt a.den_pos)
  have : a.toRat = ((a.num : ℚ) / ((a.den.toNat : ℕ) : ℚ)) := by
    unfold toRat
    congr 1
    exact_mod_cast hd.symm
  rw [this, Rat.floor_intCast_div_natCast, floor, Int.fdiv_eq_ediv _ (le_of_lt a.den_pos), hd]

theorem nonneg_div_of_nonneg {a b : Frac} (ha : (0 : ℚ) ≤ a.toRat)
    (hb : (0 : ℚ) ≤ b.toRat) : (0 : ℚ) ≤ (div a b).toRat := by
  rw [toRat_div]
  positivity

theorem round6_mono {a b : Frac} (h : a.le b) : (round6 a).le (round6 b) := by
  unfold round6 le
  simp only
  have hfloor : (add (mul a (ofInt 1000000)) ⟨1, 2, by norm_num⟩).floor ≤
      (add (mul b (ofInt 1000000)) ⟨1, 2, by norm_num⟩).floor := by
    rw [floor_eq, floor_eq]
    apply Int.floor_mono
    rw [toRat_add, toRat_add, toRat_mul, toRat_mul]
    have := (le_iff a b).mp h
    have h6 : (ofInt 1000000).toRat = (1000000 : ℚ) := by
      rw [toRat_ofInt]; norm_num
    nlinarith [this]
  nlinarith [hfloor]

end Frac

/-!
Counting lemmas for the orchestrator filter.
-/

namespace NetworkImpactOrchestrator

theorem length_insertDesc (a : AffectedArea) (l : List AffectedArea) :
    (insertDesc a l).length = l.length + 1 := by
  induction l with
  | nil => rfl
  | cons b rest ih =>
      by_cases h : b.confidence ≤ a.confidence
      · simp [insertDesc, h]
      · simp [insertDesc, h, ih]

theorem length_sortByConfDesc (l : List AffectedArea) :
    (sortByConfDesc l).length = l.length := by
  induction l with
  | nil => rfl
  | cons a rest ih => simp [sortByConfDesc, length_insertDesc, ih]

theorem pySliceStop_length {α : Type} (l : List α) (m : Int) :
    (pySliceStop l m).length = sliceLen m l.length := by
  unfold pySliceStop sliceLen
  split
  · rw [List.length_take]
    omega
  · rw [List.length_take]

theorem eventContribution_eq (m : Int) (c : Frac) (e : Event) :
    eventContribution m c e =
      sliceLen m ((e.affected_areas.filter (fun a => c ≤ a.confidence)).length) := by
  unfold eventContribution
  rw [pySliceStop_length, length_sortByConfDesc]

theorem totalAreas_cons (e : Event) (rest : List Event) :
    totalAreas (e :: rest) = e.affected_areas.length + totalAreas rest := by
  simp [totalAreas]

theorem totalAreas_filterMap (f : Event → Option Event) (g : Event → Nat)
    (hf : ∀ e, (match f e with
                | none => 0
                | some b => b.affected_areas.length) = g e) :
    ∀ events : List Event,
      totalAreas (events.filterMap f) = (events.map g).sum := by
  intro events
  induction events with
  | nil => rfl
  | cons e rest ih =>
      have hge := hf e
      cases hfe : f e with
      | none =>
          rw [hfe] at hge
          have hge0 : (0 : Nat) = g e := hge
          rw [List.filterMap_cons_none hfe, ih, List.map_cons, List.sum_cons, ← hge0]
          simp
      | some b =>
          rw [hfe] at hge
          have hgeb : b.affected_areas.length = g e := hge
          rw [List.filterMap_cons_some hfe, totalAreas_cons, ih,
              List.map_cons, List.sum_cons, hgeb]

theorem totalAreas_filter_events (events : List Event) (m : Int) (c : Frac) :
    totalAreas (_filter_events events m c) =
      (events.map (fun e => eventContribution m c e)).sum := by
  apply totalAreas_filterMap
  intro e
  by_cases h : (pySliceStop (sortByConfDesc
      (e.affected_areas.filter (fun a => c ≤ a.confidence))) m).isEmpty = true
  · have h0 : (pySliceStop (sortByConfDesc
        (e.affected_areas.filter (fun a => c ≤ a.confidence))) m).length = 0 := by
      rw [List.isEmpty_iff] at h
      rw [h]
      rfl
    rw [if_pos h]
    change 0 = _
    unfold eventContribution
    exact h0.symm
  · rw [if_neg h]
    change _ = _
    unfold eventContribution
    rfl

theorem sliceLen_mono_count (m : Int) {n n2 : Nat} (h : n ≤ n2) :
    sliceLen m n ≤ sliceLen m n2 := by
  unfold sliceLen
  split <;> omega

theorem sliceLen_mono_stop {m m2 : Int} (n : Nat) (h0 : 0 ≤ m2) (h : m2 ≤ m) :
    sliceLen m2 n ≤ sliceLen m n := by
  unfold sliceLen
  have h1 : ¬ m2 < 0 := by omega
  have h2 : ¬ m < 0 := by omega
  simp only [h1, h2, if_false]
  omega

theorem filter_length_anti (c c2 : Frac) (h : c.le c2) (l : List AffectedArea) :
    (l.filter (fun a => c2 ≤ a.confidence)).length ≤
      (l.filter (fun a => c ≤ a.confidence)).length := by
  rw [← List.countP_eq_length_filter, ← List.countP_eq_length_filter]
  apply List.countP_mono_left
  intro a _ ha
  simp only [decide_eq_true_eq] at *
  exact Frac.le_trans h ha

end NetworkImpactOrchestrator

/-!
Behavior of the url deduplication worker, generalized over the seen set.
-/

namespace WebIntelligenceAgent

theorem dedupGo_keeps_url (seen : List String) (l : List WebResult) :
    ∀ r ∈ dedupGo seen l,
      r.url.getD "" ≠ "" ∧ seen.contains (r.url.getD "") = false := by
  induction l generalizing seen with
  | nil =>
      intro r hr
      simp [dedupGo] at hr
  | cons x rest ih =>
      intro r hr
      unfold dedupGo at hr
      by_cases hx : x.url.getD "" ≠ "" ∧ ¬ seen.contains (x.url.getD "")
      · rw [if_pos hx] at hr
        rcases List.mem_cons.mp hr with heq | hmem
        · subst heq
          exact ⟨hx.1, by simpa using hx.2⟩
        · have h2 := ih (x.url.getD "" :: seen) r hmem
          refine ⟨h2.1, ?_⟩
          have := h2.2
          simp only [List.contains_cons, Bool.or_eq_false_iff] at this
          exact this.2
      · rw [if_neg hx] at hr
        exact ih seen r hr

theorem dedupGo_sublist (seen : List String) (l : List WebResult) :
    (dedupGo seen l).Sublist l := by
  induction l generalizing seen with
  | nil => simp [dedupGo]
  | cons x rest ih =>
      unfold dedupGo
      by_cases hx : x.url.getD "" ≠ "" ∧ ¬ seen.contains (x.url.getD "")
      · rw [if_pos hx]
        exact (ih (x.url.getD "" :: seen)).cons₂ x
      · rw [if_neg hx]
        exact (ih seen).cons x

theorem dedupGo_nodup (seen : List String) (l : List WebResult) :
    ((dedupGo seen l).map (fun r => r.url.getD "")).Nodup := by
  induction l generalizing seen with
  | nil => simp [dedupGo]
  | cons x rest ih =>
      unfold dedupGo
      by_cases hx : x.url.getD "" ≠ "" ∧ ¬ seen.contains (x.url.getD "")
      · rw [if_pos hx]
        refine List.nodup_cons.mpr ⟨?_, ih (x.url.getD "" :: seen)⟩
        intro hmem
        rcases List.mem_map.mp hmem with ⟨r, hr, hur⟩
        have := (dedupGo_keeps_url _ _ r hr).2
        simp only [List.contains_cons, Bool.or_eq_false_iff] at this
        have hne : (r.url.getD "" == x.url.getD "") = false := this.1
        rw [hur] at hne
        simp at hne
      · rw [if_neg hx]
        exact ih seen

theorem dedupGo_find (seen : List String) (l : List WebResult) :
    ∀ r ∈ dedupGo seen l,
      l.find? (fun x => x.url.getD "" == r.url.getD "") = some r := by
  induction l generalizing seen with
  | nil =>
      intro r hr
      simp [dedupGo] at hr
  | cons x rest ih =>
      intro r hr
      unfold dedupGo at hr
      by_cases hx : x.url.getD "" ≠ "" ∧ ¬ seen.contains (x.url.getD "")
      · rw [if_pos hx] at hr
        rcases List.mem_cons.mp hr with hheq | hmem
        · subst hheq
          simp [List.find?_cons]
        · have hk := dedupGo_keeps_url (x.url.getD "" :: seen) rest r hmem
          have hne : (x.url.getD "" == r.url.getD "") = false := by
            have := hk.2
            simp only [List.contains_cons, Bool.or_eq_false_iff] at this
            have h1 : (r.url.getD "" == x.url.getD "") = false := this.1
            simp only [beq_eq_false_iff_ne] at h1 ⊢
            exact fun hc => h1 hc.symm
          rw [List.find?_cons, hne]
          exact ih _ r hmem
      · rw [if_neg hx] at hr
        have hk := dedupGo_keeps_url seen rest r hr
        have hne : (x.url.getD "" == r.url.getD "") = false := by
          push_neg at hx
          by_cases hempty : x.url.getD "" = ""
          · simp only [beq_eq_false_iff_ne]
            intro hc
            exact hk.1 (by rw [← hc, hempty])
          · have hcontains := hx hempty
            simp only [beq_eq_false_iff_ne]
            intro hc
            rw [hc] at hcontains
            rw [hk.2] at hcontains
            cases hcontains
        rw [List.find?_cons, hne]
        exact ih seen r hr

theorem dedupGo_covers (seen : List String) (l : List WebResult)
    (h : ∀ r ∈ l, r.url.getD "" ≠ "") :
    ∀ r ∈ l, seen.contains (r.url.getD "") = true ∨
      ∃ r2 ∈ dedupGo seen l, r2.url.getD "" = r.url.getD "" := by
  induction l generalizing seen with
  | nil =>
      intro r hr
      cases hr
  | cons x rest ih =>
      intro r hr
      have hrest : ∀ q ∈ rest, q.url.getD "" ≠ "" :=
        fun q hq => h q (List.mem_cons_of_mem _ hq)
      unfold dedupGo
      by_cases hx : x.url.getD "" ≠ "" ∧ ¬ seen.contains (x.url.getD "")
      · rw [if_pos hx]
        rcases List.mem_cons.mp hr with hheq | hmem
        · subst hheq
          exact Or.inr ⟨r, List.mem_cons_self _ _, rfl⟩
        · rcases ih (x.url.getD "" :: seen) hrest r hmem with hc | ⟨r2, hr2, hur2⟩
          · simp only [List.contains_cons, Bool.or_eq_true] at hc
            rcases hc with hc | hc
            · refine Or.inr ⟨x, List.mem_cons_self _ _, ?_⟩
              simpa [eq_comm] using (beq_iff_eq.mp hc).symm
            · exact Or.inl hc
          · exact Or.inr ⟨r2, List.mem_cons_of_mem _ hr2, hur2⟩
      · rw [if_neg hx]
        rcases List.mem_cons.mp hr with hheq | hmem
        · subst hheq
          push_neg at hx
          have hcontains := hx (h r (List.mem_cons_self _ _))
          exact Or.inl hcontains
        · exact ih seen hrest r hmem

end WebIntelligenceAgent

/-!
Exhaustion behavior of the model client retry loop.
-/

namespace AIModelClient

theorem call_model_go_error_iff (attempt : Nat) (anyT : Bool)
    (l : List AttemptOutcome) (h : ∀ o ∈ l, attemptSucceeds o = false) :
    ((call_model_go attempt anyT l).1 = .error ()) ↔
      (anyT = true ∨ .timeout ∈ l) := by
  induction l generalizing attempt anyT with
  | nil => cases anyT <;> simp [call_model_go]
  | cons o rest ih =>
      have hrest : ∀ x ∈ rest, attemptSucceeds x = false :=
        fun x hx => h x (List.mem_cons_of_mem _ hx)
      cases o with
      | success t =>
          have ht : t = "" := by
            have := h _ (List.mem_cons_self _ _)
            simpa [attemptSucceeds] using this
          subst ht
          simp only [call_model_go, if_true]
          rw [ih (attempt + 1) anyT hrest]
          simp
      | httpError s =>
          simp only [call_model_go]
          rw [ih (attempt + 1) anyT hrest]
          simp
      | timeout =>
          simp only [call_model_go]
          split
          · rw [ih (attempt + 1) true hrest]
            simp
          · simp only []
            rw [ih (attempt + 1) true hrest]
            simp
      | netError =>
          simp only [call_model_go]
          split
          · rw [ih (attempt + 1) anyT hrest]
            simp
          · simp only []
            rw [ih (attempt + 1) anyT hrest]
            simp
      | otherError =>
          simp only [call_model_go]
          split
          · rw [ih (attempt + 1) anyT hrest]
            simp
          · simp only []
            rw [ih (attempt + 1) anyT hrest]
            simp

end AIModelClient

/-- A sliced search_queries value has a Python length of at most the slice
bound. -/
theorem pyLen_pySliceTo (v : Json) (n : Nat) (w : Json)
    (h : Json.pySliceTo v n = some w) :
    ∃ k, Json.pyLen w = some k ∧ k ≤ n := by
  cases v with
  | str s =>
      simp only [Json.pySliceTo, Option.some.injEq] at h
      subst h
      refine ⟨(s.data.take n).length, rfl, ?_⟩
      rw [List.length_take]
      omega
  | arr items =>
      simp only [Json.pySliceTo, Option.some.injEq] at h
      subst h
      refine ⟨(items.take n).length, rfl, ?_⟩
      rw [List.length_take]
      omega
  | null => simp [Json.pySliceTo] at h
  | bool b => simp [Json.pySliceTo] at h
  | num q => simp [Json.pySliceTo] at h
  | obj entries => simp [Json.pySliceTo] at h

open NetworkImpactOrchestrator WebIntelligenceAgent AIModelClient
open GeospatialReasoningAgent EventIntelligenceAgent

/-- C2 counterexample: _create_affected_area is not total - an area dict
whose latitude is zero makes the longitude-offset divisor
111 * abs(center_lat / 90) zero, and the function raises
ZeroDivisionError; no minimum-latitude floor guards the division. -/
theorem c2_counterexample :
    (GeospatialReasoningAgent._create_affected_area
      (.obj [("latitude", .num (Frac.ofInt 0))])).isOk = false := by
  decide

/-- C2 (amended): _create_affected_area is total on every well-typed area
dict whose center latitude is nonzero; only the center_lat = 0 input
divides by zero, because the source has no minimum-latitude floor. -/
theorem c2_theorem (lat lon r conf dp : Frac) (an sev rea est : String)
    (hlat : ¬ Frac.eqv lat (Frac.ofInt 0)) :
    (GeospatialReasoningAgent._create_affected_area
      (.obj [("latitude", .num lat), ("longitude", .num lon),
             ("radius_km", .num r), ("area_name", .str an),
             ("severity", .str sev), ("reasoning", .str rea),
             ("estimated_users", .str est), ("confidence", .num conf),
             ("supporting_data_points", .num dp)])).isOk = true := by
  show (if Frac.eqv lat (Frac.ofInt 0) then (Except.error () : Except Unit AffectedArea)
        else Except.ok _).isOk = true
  rw [if_neg hlat]
  rfl

/-- C2 witness: a Toronto-latitude area dict is processed without error. -/
theorem c2_witness :
    (GeospatialReasoningAgent._create_affected_area
      (.obj [("latitude", .num (fr 4365 100)), ("longitude", .num (fr (-7938) 100)),
             ("radius_km", .num (fr 2 1)), ("area_name", .str "Downtown Toronto"),
             ("severity", .str "high"), ("reasoning", .str "several reports"),
             ("estimated_users", .str "~15,000"), ("confidence", .num (fr 85 100)),
             ("supporting_data_points", .num (fr 12 1))])).isOk = true :=
  c2_theorem (fr 4365 100) (fr (-7938) 100) (fr 2 1) (fr 85 100) (fr 12 1)
    "Downtown Toronto" "high" "several reports" "~15,000" (by decide)

/-- C3 counterexample: an exhaustion that mixes one timeout with two
connection errors is not a pure timeout classification, yet call_model
raises ModelTimeoutError instead of returning the empty string - the
source raises whenever any attempt timed out. -/
theorem c3_counterexample :
    (AIModelClient.call_model
      [.timeout, .netError, .netError]).1.isOk = false ∧
    (AIModelClient.call_model [.timeout, .netError, .netError]).2 = [1, 2] ∧
    ¬ (∀ o ∈ ([.timeout, .netError, .netError] : List AttemptOutcome),
        o = AttemptOutcome.timeout) := by
  decide

/-- C3 (amended): when every attempt fails, call_model raises
ModelTimeoutError exactly when at least one attempt - not necessarily all
of them - timed out; otherwise it returns the empty string. -/
theorem c3_theorem (attempts : List AttemptOutcome)
    (h : ∀ o ∈ attempts, attemptSucceeds o = false) :
    ((AIModelClient.call_model attempts).1 = .error ()) ↔
      AttemptOutcome.timeout ∈ attempts := by
  have hgo := call_model_go_error_iff 0 false attempts h
  rw [AIModelClient.call_model]
  rw [hgo]
  simp

/-- C3 witness: three timeouts raise ModelTimeoutError. -/
theorem c3_witness :
    (AIModelClient.call_model [.timeout, .timeout, .timeout]).1 = .error () :=
  (c3_theorem [.timeout, .timeout, .timeout] (by decide)).mpr (by decide)

/-- C4 counterexample: two non-2xx responses followed by a success return
the text after zero inter-attempt delays - the source sleeps only in its
exception handlers, so an HTTP error status retries immediately rather
than waiting 2 to the attempt seconds. -/
theorem c4_counterexample :
    AIModelClient.call_model
      [.httpError 500, .httpError 500, .success "response text"] =
      (.ok "response text", ([] : List Nat)) := by
  rfl

/-- C4 (amended): backoff applies to the exception-classified failures -
timeout, connection error, unexpected error - not to non-2xx statuses: a
call failing twice with such exceptions and succeeding on the third
attempt returns the text after exactly the delays 1 and 2 seconds, which
are monotonically nondecreasing. -/
theorem c4_theorem (f1 f2 : AttemptOutcome) (t : String)
    (h1 : isExceptionFailure f1 = true)
    (h2 : isExceptionFailure f2 = true)
    (ht : t ≠ "") :
    AIModelClient.call_model [f1, f2, .success t] = (.ok t, [1, 2]) ∧
      (1 : Nat) ≤ 2 := by
  refine ⟨?_, by omega⟩
  cases f1 <;> cases f2 <;>
    simp_all [AIModelClient.call_model, call_model_go, isExceptionFailure]

/-- C4 witness: two connection errors then a success yield the text after
the delays 1 and 2. -/
theorem c4_witness :
    AIModelClient.call_model [.netError, .netError, .success "hello"] =
      (.ok "hello", [1, 2]) ∧ (1 : Nat) ≤ 2 :=
  c4_theorem .netError .netError "hello" rfl rfl (by decide)

/-- C6 counterexample: with one event holding two areas above the
threshold, lowering max_areas from 0 to -1 raises the returned area count
from 0 to 1, because the Python slice interprets a negative stop as
dropping the last elements; monotonicity fails as stated. -/
theorem c6_counterexample :
    totalAreas (_filter_events [twoAreaEvent] 0 (fr 65 100)) = 0 ∧
    totalAreas (_filter_events [twoAreaEvent] (-1) (fr 65 100)) = 1 ∧
    (-1 : Int) ≤ 0 := by
  decide

/-- C6 (amended): raising min_confidence never increases the total area
count returned by _filter_events, for any max_areas; and lowering
max_areas never increases it as long as max_areas stays nonnegative (a
negative value is a Python drop-from-the-end slice, which breaks
monotonicity at the 0 to -1 boundary). -/
theorem c6_theorem (events : List Event) (m m2 : Int) (c c2 : Frac)
    (hc : Frac.le c c2) (hm0 : 0 ≤ m2) (hm : m2 ≤ m) :
    totalAreas (_filter_events events m c2) ≤
      totalAreas (_filter_events events m c) ∧
    totalAreas (_filter_events events m2 c) ≤
      totalAreas (_filter_events events m c) := by
  constructor
  · rw [totalAreas_filter_events, totalAreas_filter_events]
    apply List.sum_le_sum
    intro e _
    rw [eventContribution_eq, eventContribution_eq]
    exact sliceLen_mono_count m (filter_length_anti c c2 hc _)
  · rw [totalAreas_filter_events, totalAreas_filter_events]
    apply List.sum_le_sum
    intro e _
    rw [eventContribution_eq, eventContribution_eq]
    exact sliceLen_mono_stop _ hm0 hm

/-- C6 witness: on a concrete event list, raising the threshold from 0.65
to 0.85 and lowering max_areas from 10 to 1 both leave the area count
nonincreasing. -/
theorem c6_witness :
    totalAreas (_filter_events [twoAreaEvent] 10 (fr 85 100)) ≤
      totalAreas (_filter_events [twoAreaEvent] 10 (fr 65 100)) ∧
    totalAreas (_filter_events [twoAreaEvent] 1 (fr 65 100)) ≤
      totalAreas (_filter_events [twoAreaEvent] 10 (fr 65 100)) :=
  c6_theorem [twoAreaEvent] 10 1 (fr 65 100) (fr 85 100)
    (by decide) (by decide) (by decide)

/-- C7: over evidence whose items all carry a nonempty url (items with a
missing or empty url are dropped - see the C10 theorem),
_deduplicate_results preserves the original relative order (it is a
sublist of the input), each input url occurs exactly once in the output,
and every retained item is the first input item bearing its url. -/
theorem c7_theorem (results : List WebResult)
    (h : ∀ r ∈ results, r.url.getD "" ≠ "") :
    (WebIntelligenceAgent._deduplicate_results results).Sublist results ∧
    (∀ r ∈ results,
      List.count (r.url.getD "")
        ((WebIntelligenceAgent._deduplicate_results results).map
          (fun x => x.url.getD "")) = 1) ∧
    (∀ r ∈ WebIntelligenceAgent._deduplicate_results results,
      results.find? (fun x => x.url.getD "" == r.url.getD "") = some r) := by
  refine ⟨dedupGo_sublist [] results, ?_, dedupGo_find [] results⟩
  intro r hr
  have hnodup := dedupGo_nodup [] results
  rcases dedupGo_covers [] results h r hr with hc | ⟨r2, hr2, hur⟩
  · simp at hc
  · rw [← hur]
    exact List.count_eq_one_of_mem hnodup (List.mem_map.mpr ⟨r2, hr2, rfl⟩)

/-- C7 witness: in a list where the first and third items share a url,
that url occurs exactly once after deduplication. -/
theorem c7_witness :
    List.count ((sampleResult "same page again" "https://news.example.com/one").url.getD "")
      ((WebIntelligenceAgent._deduplicate_results c7Results).map
        (fun x => x.url.getD "")) = 1 :=
  (c7_theorem c7Results (by decide)).2.1
    (sampleResult "same page again" "https://news.example.com/one") (by decide)

/-- C9: for the area dict with center (43.65, -79.38) and radius 2.0 the
derived lat_range endpoints lie within 0.018 of 43.6320 and 43.6680; and
for every numeric area dict with nonnegative radius and nonzero center
latitude the construction succeeds, with lat_range and long_range each
bracketing the stored (rounded) center on both axes. -/
theorem c9_theorem (lat lon r : Frac) (hr : Frac.le (Frac.ofInt 0) r)
    (hlat : ¬ Frac.eqv lat (Frac.ofInt 0)) :
    (GeospatialReasoningAgent._create_affected_area c9Input = .ok c9Area ∧
     Frac.le (Frac.abs (Frac.sub (c9Area.lat_range.getD 0 (fr 0 1))
       (fr 436320 10000))) (fr 18 1000) ∧
     Frac.le (Frac.abs (Frac.sub (c9Area.lat_range.getD 1 (fr 0 1))
       (fr 436680 10000))) (fr 18 1000)) ∧
    ((GeospatialReasoningAgent._create_affected_area
        (.obj [("latitude", .num lat), ("longitude", .num lon),
               ("radius_km", .num r)])).isOk = true ∧
     (let a := areaOf (GeospatialReasoningAgent._create_affected_area
        (.obj [("latitude", .num lat), ("longitude", .num lon),
               ("radius_km", .num r)]))
      Frac.le (a.lat_range.getD 0 (fr 0 1)) a.center.lat ∧
      Frac.le a.center.lat (a.lat_range.getD 1 (fr 0 1)) ∧
      Frac.le (a.long_range.getD 0 (fr 0 1)) a.center.long ∧
      Frac.le a.center.long (a.long_range.getD 1 (fr 0 1)))) := by
  have hcreate : GeospatialReasoningAgent._create_affected_area
      (.obj [("latitude", .num lat), ("longitude", .num lon),
             ("radius_km", .num r)]) =
      if Frac.eqv lat (Frac.ofInt 0) then .error () else
        Except.ok
          { area_name := "Unknown Area",
            severity := "moderate",
            lat_range :=
              [Frac.round6 (Frac.sub lat (Frac.div r (Frac.ofInt 111))),
               Frac.round6 (Frac.add lat (Frac.div r (Frac.ofInt 111)))],
            long_range :=
              [Frac.round6 (Frac.sub lon (Frac.div r (Frac.mul (Frac.ofInt 111)
                 (Frac.abs (Frac.div lat (Frac.ofInt 90)))))),
               Frac.round6 (Frac.add lon (Frac.div r (Frac.mul (Frac.ofInt 111)
                 (Frac.abs (Frac.div lat (Frac.ofInt 90))))))],
            center := ⟨Frac.round6 lat, Frac.round6 lon⟩,
            reasoning := "No reasoning provided",
            estimated_impact := "Unknown",
            confidence := fr 7 10,
            data_points := Frac.ofInt 0 } := rfl
  have hofs : ∀ off : Frac, (0 : ℚ) ≤ off.toRat →
      Frac.le (Frac.round6 (Frac.sub lat off)) (Frac.round6 lat) ∧
      Frac.le (Frac.round6 lat) (Frac.round6 (Frac.add lat off)) := by
    intro off hoff
    constructor
    · apply Frac.round6_mono
      rw [Frac.le_iff, Frac.toRat_sub]
      linarith
    · apply Frac.round6_mono
      rw [Frac.le_iff, Frac.toRat_add]
      linarith
  have hofsLon : ∀ off : Frac, (0 : ℚ) ≤ off.toRat →
      Frac.le (Frac.round6 (Frac.sub lon off)) (Frac.round6 lon) ∧
      Frac.le (Frac.round6 lon) (Frac.round6 (Frac.add lon off)) := by
    intro off hoff
    constructor
    · apply Frac.round6_mono
      rw [Frac.le_iff, Frac.toRat_sub]
      linarith
    · apply Frac.round6_mono
      rw [Frac.le_iff, Frac.toRat_add]
      linarith
  have hrQ : (0 : ℚ) ≤ r.toRat := by
    have := (Frac.le_iff (Frac.ofInt 0) r).mp hr
    rwa [Frac.toRat_ofInt] at this
  have hlatoff : (0 : ℚ) ≤ (Frac.div r (Frac.ofInt 111)).toRat := by
    apply Frac.nonneg_div_of_nonneg hrQ
    rw [Frac.toRat_ofInt]
    norm_num
  have hlonoff : (0 : ℚ) ≤ (Frac.div r (Frac.mul (Frac.ofInt 111)
      (Frac.abs (Frac.div lat (Frac.ofInt 90))))).toRat := by
    apply Frac.nonneg_div_of_nonneg hrQ
    rw [Frac.toRat_mul, Frac.toRat_abs, Frac.toRat_ofInt]
    positivity
  refine ⟨⟨rfl, by decide, by decide⟩, ?_, ?_⟩
  · rw [hcreate, if_neg hlat]
    rfl
  · rw [hcreate, if_neg hlat]
    exact ⟨(hofs _ hlatoff).1, (hofs _ hlatoff).2,
           (hofsLon _ hlonoff).1, (hofsLon _ hlonoff).2⟩

/-- C9 witness: a Vancouver-latitude area dict with radius 3 succeeds and
its ranges bracket the stored center. -/
theorem c9_witness :
    (GeospatialReasoningAgent._create_affected_area c9Input = .ok c9Area ∧
     Frac.le (Frac.abs (Frac.sub (c9Area.lat_range.getD 0 (fr 0 1))
       (fr 436320 10000))) (fr 18 1000) ∧
     Frac.le (Frac.abs (Frac.sub (c9Area.lat_range.getD 1 (fr 0 1))
       (fr 436680 10000))) (fr 18 1000)) ∧
    ((GeospatialReasoningAgent._create_affected_area
        (.obj [("latitude", .num (fr 492827 10000)),
               ("longitude", .num (fr (-1231207) 10000)),
               ("radius_km", .num (fr 3 1))])).isOk = true ∧
     (let a := areaOf (GeospatialReasoningAgent._create_affected_area
        (.obj [("latitude", .num (fr 492827 10000)),
               ("longitude", .num (fr (-1231207) 10000)),
               ("radius_km", .num (fr 3 1))]))
      Frac.le (a.lat_range.getD 0 (fr 0 1)) a.center.lat ∧
      Frac.le a.center.lat (a.lat_range.getD 1 (fr 0 1)) ∧
      Frac.le (a.long_range.getD 0 (fr 0 1)) a.center.long ∧
      Frac.le a.center.long (a.long_range.getD 1 (fr 0 1)))) :=
  c9_theorem (fr 492827 10000) (fr (-1231207) 10000) (fr 3 1)
    (by decide) (by decide)

/-- C10 (implicit invariant): every item of the gathered bundle has a
present, nonempty url - _deduplicate_results silently drops any search
result whose url field is missing or empty, so such items never reach
stage 3 or the final report. -/
theorem c10_theorem (m : EventMetadata) (searchOutput : List WebResult)
    (wo : Except Unit Json) (intel : IntelligenceData)
    (h : WebIntelligenceAgent.gather_intelligence m searchOutput wo = .ok intel)
    (r : WebResult) (hr : r ∈ intel.web_results) :
    ∃ u, r.url = some u ∧ u ≠ "" := by
  have hweb : intel.web_results =
      WebIntelligenceAgent._deduplicate_results searchOutput := by
    unfold WebIntelligenceAgent.gather_intelligence at h
    cases hq : Json.pyLen m.search_queries with
    | none =>
        rw [hq] at h
        simp [Bind.bind, Except.bind] at h
    | some n =>
        rw [hq] at h
        cases hw : WebIntelligenceAgent._gather_weather_data m wo with
        | error e =>
            rw [hw] at h
            simp [Bind.bind, Except.bind] at h
        | ok w =>
            rw [hw] at h
            simp only [Bind.bind, Except.bind, Except.ok.injEq] at h
            rw [← h]
  rw [hweb] at hr
  have hk := dedupGo_keeps_url [] searchOutput r hr
  cases hu : r.url with
  | none =>
      rw [hu] at hk
      simp at hk
  | some u =>
      refine ⟨u, rfl, ?_⟩
      rw [hu] at hk
      simpa using hk.1

/-- C10 witness: the retained first item of the mixed evidence list has
the nonempty url it was gathered with. -/
theorem c10_witness :
    ∃ u, (sampleResult "first" "https://a.example/x").url = some u ∧ u ≠ "" :=
  c10_theorem c8ExpectedMetadata c10Results (.error ()) c10Intel rfl
    (sampleResult "first" "https://a.example/x") (by decide)

/-- C1 counterexample: the question is valid and the model response is a
well-formed JSON object with the required keys but empty lists; the stage
1 parse accepts it and analyze_query returns metadata with zero events and
zero search queries, not at least one of each. -/
theorem c1_counterexample :
    (validate_question iceStormQuestion).1 = true ∧
    metaEventsLen (EventIntelligenceAgent.analyze_query iceStormQuestion
      (.ok emptyListsResponse)) = some 0 ∧
    metaQueriesLen (EventIntelligenceAgent.analyze_query iceStormQuestion
      (.ok emptyListsResponse)) = some 0 := by
  decide

/-- C1 (amended): for every question and model response text,
analyze_query returns without raising, with at most five search queries;
whenever the response fails to parse the deterministic fallback is used,
and that fallback - a total function - yields exactly one event and
exactly five search queries.  A response that parses successfully may
carry empty events or search_queries lists, which are returned as-is. -/
theorem c1_theorem (q resp : String) :
    (∃ m, EventIntelligenceAgent.analyze_query q (.ok resp) = .ok m ∧
       ∃ n, Json.pyLen m.search_queries = some n ∧
         n ≤ Config.MAX_SEARCH_QUERIES) ∧
    ((EventIntelligenceAgent._parse_response resp).isOk = false →
      EventIntelligenceAgent.analyze_query q (.ok resp) =
        .ok (EventIntelligenceAgent._generate_fallback_metadata q) ∧
      Json.pyLen
        (EventIntelligenceAgent._generate_fallback_metadata q).events = some 1 ∧
      Json.pyLen
        (EventIntelligenceAgent._generate_fallback_metadata q).search_queries =
        some 5) := by
  constructor
  · cases hp : EventIntelligenceAgent._parse_response resp with
    | error e =>
        refine ⟨EventIntelligenceAgent._generate_fallback_metadata q, ?_, 5, rfl,
          by decide⟩
        simp [EventIntelligenceAgent.analyze_query, hp]
    | ok m =>
        refine ⟨m, by simp [EventIntelligenceAgent.analyze_query, hp], ?_⟩
        unfold EventIntelligenceAgent._parse_response at hp
        split at hp
        · cases hp
        · split at hp
          · cases hp
          · split at hp
            · cases hp
            · split at hp
              · cases hp
              · split at hp
                · cases hp
                · rename_i sq hslice
                  injection hp with hp2
                  subst hp2
                  exact pyLen_pySliceTo _ _ _ hslice
          · cases hp
  · intro hfail
    cases hp : EventIntelligenceAgent._parse_response resp with
    | ok m =>
        rw [hp] at hfail
        cases hfail
    | error e =>
        exact ⟨by simp [EventIntelligenceAgent.analyze_query, hp], rfl, rfl⟩

/-- C1 witness: a response with no JSON span triggers the fallback, which
produces one event and five search queries for the sample question. -/
theorem c1_witness :
    EventIntelligenceAgent.analyze_query iceStormQuestion (.ok "model failure") =
      .ok (EventIntelligenceAgent._generate_fallback_metadata iceStormQuestion) ∧
    Json.pyLen (EventIntelligenceAgent._generate_fallback_metadata
      iceStormQuestion).events = some 1 ∧
    Json.pyLen (EventIntelligenceAgent._generate_fallback_metadata
      iceStormQuestion).search_queries = some 5 :=
  (c1_theorem iceStormQuestion "model failure").2 (by decide)

/-- C8: for the ice-storm question with a failing stage 1 parse, the stage
1 fallback yields exactly the expected metadata - primary location
Toronto, timeframe yesterday, five search queries, weather required - and
with a failing stage 3 parse over that metadata, the stage 3 fallback
yields exactly one event with one area of confidence 0.6, whose
supporting-data-point count is the evidence count and whose reasoning is
nonempty. -/
theorem c8_theorem (resp1 resp3 : String) (intel : IntelligenceData)
    (h1 : (EventIntelligenceAgent._parse_response resp1).isOk = false)
    (h3 : (GeospatialReasoningAgent._parse_analysis resp3).isOk = false) :
    EventIntelligenceAgent.analyze_query iceStormQuestion (.ok resp1) =
      .ok c8ExpectedMetadata ∧
    Json.objGet c8EventEntries "primary_location" = some (.str "Toronto") ∧
    Json.objGet c8EventEntries "timeframe" = some (.str "yesterday") ∧
    Json.pyLen c8ExpectedMetadata.search_queries = some 5 ∧
    c8ExpectedMetadata.requires_weather_data = .bool true ∧
    GeospatialReasoningAgent.analyze_impact c8ExpectedMetadata intel
      (.ok resp3) = .ok [c8FallbackEvent intel.web_results.length] ∧
    (c8FallbackEvent intel.web_results.length).affected_areas =
      [c8FallbackArea intel.web_results.length] ∧
    (c8FallbackArea intel.web_results.length).confidence = fr 6 10 ∧
    (c8FallbackArea intel.web_results.length).data_points =
      Frac.ofInt intel.web_results.length ∧
    (c8FallbackArea intel.web_results.length).reasoning ≠ "" := by
  have hstage1 : EventIntelligenceAgent.analyze_query iceStormQuestion
      (.ok resp1) = .ok c8ExpectedMetadata := by
    cases hp : EventIntelligenceAgent._parse_response resp1 with
    | ok m =>
        rw [hp] at h1
        cases h1
    | error e =>
        simp only [EventIntelligenceAgent.analyze_query, hp]
        rfl
  have hstage3 : GeospatialReasoningAgent.analyze_impact c8ExpectedMetadata
      intel (.ok resp3) = .ok [c8FallbackEvent intel.web_results.length] := by
    cases hp : GeospatialReasoningAgent._parse_analysis resp3 with
    | ok evs =>
        rw [hp] at h3
        cases h3
    | error e =>
        simp only [GeospatialReasoningAgent.analyze_impact, hp]
        rfl
  have hreason : (c8FallbackArea intel.web_results.length).reasoning ≠ "" := by
    intro hc
    have hre : (c8FallbackArea intel.web_results.length).reasoning =
        ("Fallback area generated from " ++
          toString intel.web_results.length ++
          " web sources. Analysis indicates potential network disruption " ++
          "based on search results mentioning service issues in the " ++
          "Toronto") ++ "." := rfl
    rw [hre] at hc
    have hlen := congrArg String.length hc
    rw [String.length_append] at hlen
    have hdot : ("." : String).length = 1 := rfl
    have hnil : ("" : String).length = 0 := rfl
    rw [hdot, hnil] at hlen
    omega
  exact ⟨hstage1, rfl, rfl, rfl, rfl, hstage3, rfl, rfl, rfl, hreason⟩

/-- C8 witness: the full end-to-end fallback scenario at concrete failing
responses and a concrete five-item evidence bundle. -/
theorem c8_witness :
    EventIntelligenceAgent.analyze_query iceStormQuestion
      (.ok "upstream model returned no text") = .ok c8ExpectedMetadata ∧
    Json.objGet c8EventEntries "primary_location" = some (.str "Toronto") ∧
    Json.objGet c8EventEntries "timeframe" = some (.str "yesterday") ∧
    Json.pyLen c8ExpectedMetadata.search_queries = some 5 ∧
    c8ExpectedMetadata.requires_weather_data = .bool true ∧
    GeospatialReasoningAgent.analyze_impact c8ExpectedMetadata c10Intel
      (.ok "not json either") = .ok [c8FallbackEvent c10Intel.web_results.length] ∧
    (c8FallbackEvent c10Intel.web_results.length).affected_areas =
      [c8FallbackArea c10Intel.web_results.length] ∧
    (c8FallbackArea c10Intel.web_results.length).confidence = fr 6 10 ∧
    (c8FallbackArea c10Intel.web_results.length).data_points =
      Frac.ofInt c10Intel.web_results.length ∧
    (c8FallbackArea c10Intel.web_results.length).reasoning ≠ "" :=
  c8_theorem "upstream model returned no text" "not json either" c10Intel
    (by decide) (by decide)

/-- A cache read whose first component is a hit leaves the cache state
unchanged. -/
theorem get_hit_eq (c : SimpleCache.CacheState) (key : String)
    (now ttl : Frac) (r : AnalysisResult)
    (h : (SimpleCache.get c key now ttl).1 = some r) :
    SimpleCache.get c key now ttl = (some r, c) := by
  unfold SimpleCache.get at h ⊢
  split at h
  · simp at h
  · rename_i v ts heq
    split at h
    · rename_i hcond
      simp at h
      rw [if_pos hcond, h]
    · simp at h

/-- C5: cache idempotence of the orchestrator.  First, a fresh cached
entry for the verbatim question short-circuits analyze: the cached value
is returned unchanged, the cache is untouched, and no model, search or
weather call is performed.  Second, after a miss that runs the full
pipeline and caches its result, an identical back-to-back question (asked
within the TTL of the write) returns exactly the same AnalysisResult -
timestamp included - again with zero external calls. -/
theorem c5_theorem (q : String) (opts : Options) (env1 env2 : Env)
    (c : SimpleCache.CacheState) (r : AnalysisResult)
    (c1 : SimpleCache.CacheState) (k : CallCounts) :
    ((SimpleCache.get c ("analysis_" ++ q) env1.getTime Config.CACHE_TTL).1 =
        some r →
      analyze q opts env1 c = .ok (r, c, ⟨0, 0, 0⟩)) ∧
    ((SimpleCache.get c ("analysis_" ++ q) env1.getTime Config.CACHE_TTL).1 =
        none →
      analyze q opts env1 c = .ok (r, c1, k) →
      Frac.sub env2.getTime env1.setTime < Config.CACHE_TTL →
      analyze q opts env2 c1 = .ok (r, c1, ⟨0, 0, 0⟩)) := by
  constructor
  · intro hhit
    have hget := get_hit_eq c ("analysis_" ++ q) env1.getTime Config.CACHE_TTL r hhit
    simp only [analyze]
    rw [hget]
  · intro hmiss hrun hfresh
    have hget : SimpleCache.get c ("analysis_" ++ q) env1.getTime
        Config.CACHE_TTL =
        (none, (SimpleCache.get c ("analysis_" ++ q) env1.getTime
          Config.CACHE_TTL).2) := by
      rw [← hmiss]
    simp only [analyze] at hrun
    rw [hget] at hrun
    simp only [] at hrun
    cases hpipe : runPipeline q opts env1 with
    | error e =>
        rw [hpipe] at hrun
        simp at hrun
    | ok res =>
        obtain ⟨result, counts⟩ := res
        rw [hpipe] at hrun
        simp only [] at hrun
        injection hrun with hrun2
        have hres : result = r := congrArg Prod.fst hrun2
        have hc1 : SimpleCache.set (SimpleCache.get c ("analysis_" ++ q)
            env1.getTime Config.CACHE_TTL).2 ("analysis_" ++ q) result
            env1.setTime = c1 := by
          have h2 := congrArg Prod.fst (congrArg Prod.snd hrun2)
          simpa using h2
        have hget2 : SimpleCache.get c1 ("analysis_" ++ q) env2.getTime
            Config.CACHE_TTL = (some r, c1) := by
          rw [← hc1, hres]
          unfold SimpleCache.set SimpleCache.get SimpleCache.lookupEntry
          rw [if_pos rfl]
          simp only []
          rw [if_pos hfresh]
        simp only [analyze]
        rw [hget2]

/-- C5 witness: a first run on the empty cache misses, runs the pipeline,
and caches; a second run five seconds later, under an oracle whose every
remote call would fail, returns the identical cached result with zero
external calls. -/
theorem c5_witness :
    analyze iceStormQuestion defaultOptions c5Env2 c5C1 =
      .ok (c5R, c5C1, ⟨0, 0, 0⟩) :=
  (c5_theorem iceStormQuestion defaultOptions c5Env1 c5Env2 emptyCache
    c5R c5C1 c5K).2 rfl rfl (by decide)

end TelusGuard
